import Mathlib

/-!
# Verification of the MusicCog of the discord music bot (src/music_bot/music_cog.py)

Shallow embedding of the cog-level command handlers and the playlist
consumer loop of `MusicCog`, together with the parts of its collaborators
(`AudioPlayer`, `UsageDatabase`, `song_factory`) that the handlers call.
The collaborators are not part of the source tree; where a definition is
taken from the specification instead of source code, its doc comment says
`Modelled from the spec:`.
-/

namespace MusicBot

/-- One playable media entry (a `Song` object).  `failed` is
Modelled from the spec: §4.2 says a collection entry whose resolution
permanently fails is marked failed while its readiness signal still fires;
the marking itself happens in `song_factory`, which is not under src/.  The
remaining fields mirror the `Song` objects used by `music_cog.py`
(`song.id`, `song.title`, and the one-shot `is_processed_event`). -/
structure Song where
  id : Nat
  title : String
  failed : Bool
deriving DecidableEq, Repr

/-- Modelled from the spec: `AudioPlayer.add_to_song_queue(song, play_next)`
(the `AudioPlayer` class is not under src/); §4.1: `append(entry)` puts the
entry at the tail, `prepend(entry)` at the head for "play next". -/
def add_to_song_queue (queue : List Song) (song : Song) (playNext : Bool) : List Song :=
  if playNext then song :: queue else queue ++ [song]

/-- State of one collection request being consumed by the loop at
`music_cog.py:511-518`: which readiness events have fired
(`fired`, index-aligned with the collection), how far the `for song in
playlist` loop has advanced (`nextIdx`), and the play queue. -/
structure PlayState where
  fired : List Bool
  nextIdx : Nat
  queue : List Song
deriving DecidableEq, Repr

/-- Interleaved execution of a collection request, from `MusicCog._play`
(`music_cog.py:504-518`).  A `resolve` step is the background
`process_playlist` task firing the `is_processed_event` of entry `j` — in
any order, since resolution completes in any order.  A `consume` step is
one iteration of the consumer loop: it may run only when the current
entry (`nextIdx`) has fired (`await song.is_processed_event.wait()`), and
it then adds that entry to the queue unconditionally — the source performs
no check of any failure marking before `add_to_song_queue`. -/
inductive Step (songs : List Song) (playNext : Bool) : PlayState → PlayState → Prop
  | resolve (s : PlayState) (j : Nat) (hj : j < songs.length) :
      Step songs playNext s { s with fired := s.fired.set j true }
  | consume (s : PlayState) (h : s.nextIdx < songs.length)
      (hf : s.fired.get? s.nextIdx = some true) :
      Step songs playNext s
        { fired := s.fired
          nextIdx := s.nextIdx + 1
          queue := add_to_song_queue s.queue (songs.get ⟨s.nextIdx, h⟩) playNext }

/-- Initial state of a collection request: no entry resolved yet, the
consumer loop at entry 0, the play queue holding whatever was queued
before the request. -/
def initState (songs : List Song) (q0 : List Song) : PlayState :=
  { fired := List.replicate songs.length false, nextIdx := 0, queue := q0 }

/-- All states reachable by interleaving background resolution with the
consumer loop. -/
def Reach (songs : List Song) (playNext : Bool) (q0 : List Song) (s : PlayState) : Prop :=
  Relation.ReflTransGen (Step songs playNext) (initState songs q0) s

lemma step_queue_invariant {songs : List Song} {q0 : List Song} {s s' : PlayState}
    (hstep : Step songs false s s')
    (hq : s.queue = q0 ++ songs.take s.nextIdx) :
    s'.queue = q0 ++ songs.take s'.nextIdx := by
  cases hstep with
  | resolve j hj => simpa using hq
  | consume h hf =>
      simp only [add_to_song_queue, Bool.false_eq_true, if_false]
      rw [hq, List.append_assoc]
      congr 1
      rw [List.take_succ]
      congr 1
      simp [List.getElem?_eq_getElem h, List.get_eq_getElem]

/-- C1: For every collection request with `play_next = false` (the `play`
command), every state reachable by any interleaving of out-of-order
background resolution with the consumer loop has
`queue = q0 ++ songs.take nextIdx`: the loop waits on the readiness signal
of entry `nextIdx` strictly in collection order and appends entries to the
play queue in original collection order, no matter in which order
resolution completed. -/
theorem play_collection_appends_in_collection_order
    (songs q0 : List Song) (s : PlayState)
    (hreach : Reach songs false q0 s) :
    s.queue = q0 ++ songs.take s.nextIdx := by
  induction hreach with
  | refl => simp [initState]
  | tail _ hstep ih => exact step_queue_invariant hstep ih

/-- A concrete 5-item collection for exercising the consumer loop. -/
def c1Songs : List Song :=
  [⟨1, "one", false⟩, ⟨2, "two", false⟩, ⟨3, "three", false⟩,
   ⟨4, "four", false⟩, ⟨5, "five", false⟩]

/-- The state after all five entries resolved (in reverse collection
order) and the consumer loop ran to completion. -/
def c1Final : PlayState :=
  { fired := [true, true, true, true, true], nextIdx := 5, queue := c1Songs }

/-- A concrete interleaving for `c1Songs`: resolution completes in reverse
collection order (entry 4 first, entry 0 last), and only then does the
consumer loop perform its five iterations. -/
lemma c1Reach : Reach c1Songs false [] c1Final := by
  refine Relation.ReflTransGen.head (Step.resolve _ 4 (by decide)) ?_
  refine Relation.ReflTransGen.head (Step.resolve _ 3 (by decide)) ?_
  refine Relation.ReflTransGen.head (Step.resolve _ 2 (by decide)) ?_
  refine Relation.ReflTransGen.head (Step.resolve _ 1 (by decide)) ?_
  refine Relation.ReflTransGen.head (Step.resolve _ 0 (by decide)) ?_
  refine Relation.ReflTransGen.head (Step.consume _ (by decide) (by decide)) ?_
  refine Relation.ReflTransGen.head (Step.consume _ (by decide) (by decide)) ?_
  refine Relation.ReflTransGen.head (Step.consume _ (by decide) (by decide)) ?_
  refine Relation.ReflTransGen.head (Step.consume _ (by decide) (by decide)) ?_
  refine Relation.ReflTransGen.head (Step.consume _ (by decide) (by decide)) ?_
  exact Relation.ReflTransGen.refl

/-- Witness for C1: enqueuing the 5-item collection `c1Songs` where
resolution completes in reverse order still yields the entries appended to
the play queue in original collection order 1..5. -/
theorem play_collection_order_witness :
    c1Final.queue = [] ++ c1Songs.take c1Final.nextIdx ∧ c1Final.queue = c1Songs :=
  ⟨play_collection_appends_in_collection_order c1Songs [] c1Final c1Reach, by decide⟩

/-- A 2-item collection whose first entry permanently failed resolution.
Per spec §4.2 a failed entry is marked failed and its readiness signal
still fires. -/
def c2Songs : List Song := [⟨10, "broken", true⟩, ⟨11, "fine", false⟩]

/-- The state after both entries of `c2Songs` have fired and the consumer
loop ran to completion. -/
def c2Final : PlayState :=
  { fired := [true, true], nextIdx := 2, queue := c2Songs }

/-- A complete run of the consumer loop on `c2Songs`. -/
lemma c2Reach : Reach c2Songs false [] c2Final := by
  refine Relation.ReflTransGen.head (Step.resolve _ 0 (by decide)) ?_
  refine Relation.ReflTransGen.head (Step.resolve _ 1 (by decide)) ?_
  refine Relation.ReflTransGen.head (Step.consume _ (by decide) (by decide)) ?_
  refine Relation.ReflTransGen.head (Step.consume _ (by decide) (by decide)) ?_
  exact Relation.ReflTransGen.refl

/-- C2 (code bug, evaluated at the failing input): the consumer loop at
`music_cog.py:511-518` waits for the readiness signal of each entry and
then calls `add_to_song_queue` unconditionally — it never consults the
failure marking.  Running the loop to completion on `c2Songs`, whose first
entry permanently failed, ends in `c2Final`, and the failed entry is in
the play queue, contradicting the requirement that a failed entry is
never enqueued. -/
theorem failed_entry_is_enqueued :
    Reach c2Songs false [] c2Final ∧
    Song.mk 10 "broken" true ∈ c2Final.queue ∧
    (Song.mk 10 "broken" true).failed = true :=
  ⟨c2Reach, by decide, rfl⟩

/-- Outcome of one call to the usage recorder. -/
inductive RecorderOutcome
  | success
  | failure (msg : String)
deriving DecidableEq, Repr

/-- A Python-level exception escaping a handler. -/
inductive PyError
  | typeError
  | indexError
  | dbError (msg : String)
deriving DecidableEq, Repr

/-- Modelled from the spec: `UsageDatabase.insert_data` (the
`UsageDatabase` class is not under src/); §6: the usage recorder is
fire-and-forget — a failure is logged, not propagated, so the call always
returns normally (`Except.ok`) with its log lines and never an
exception. -/
def insert_data : RecorderOutcome → Except PyError (List String)
  | .success => .ok []
  | .failure msg => .ok ["usage recorder failure: " ++ msg]

/-- The log lines produced by one recorder call in `MusicCog._play`
(empty when the usage database is disabled). -/
def recorderLogs (enableUsageDb : Bool) (r : RecorderOutcome) : List String :=
  if enableUsageDb then
    match r with
    | .success => []
    | .failure msg => ["usage recorder failure: " ++ msg]
  else []

/-- The single-song branch of `MusicCog._play` (`music_cog.py:490-503`):
if the usage database is enabled, the song request is recorded by
`await self.usage_db.insert_data(...)` — with no surrounding
`try`/`except`, so an exception raised there would propagate and skip the
enqueue — and then the song is added to the queue with
`add_to_song_queue(song, play_next=play_next)`. -/
def playSingleSong (enableUsageDb : Bool) (r : RecorderOutcome)
    (queue : List Song) (song : Song) (playNext : Bool) :
    Except PyError (List Song × List String) :=
  match (if enableUsageDb then insert_data r else .ok []) with
  | .error e => .error e
  | .ok logs => .ok (add_to_song_queue queue song playNext, logs)

/-- C3: a call to the usage recorder in the single-song branch of
`MusicCog._play` is fire-and-forget — whatever the recorder outcome, the
branch returns normally (no exception reaches the caller), the song is
added to the play queue, and a recorder failure with the database enabled
leaves a log line. -/
theorem usage_recorder_failure_not_propagated
    (enableUsageDb : Bool) (r : RecorderOutcome)
    (queue : List Song) (song : Song) (playNext : Bool) :
    playSingleSong enableUsageDb r queue song playNext =
      .ok (add_to_song_queue queue song playNext, recorderLogs enableUsageDb r) ∧
    (∀ msg, r = .failure msg → enableUsageDb = true →
      recorderLogs enableUsageDb r ≠ []) := by
  constructor
  · cases enableUsageDb <;> cases r <;> rfl
  · intro msg hr hdb
    subst hr; subst hdb
    simp [recorderLogs]

/-- Witness for C3: with the usage database enabled and a recorder call
that fails, the song is still enqueued at the tail, the failure is in the
log, and no exception is produced. -/
theorem usage_recorder_witness :
    playSingleSong true (.failure "disk full") [] ⟨7, "tune", false⟩ false =
      .ok ([⟨7, "tune", false⟩], ["usage recorder failure: " ++ "disk full"]) ∧
    recorderLogs true (.failure "disk full") ≠ [] := by
  have h := usage_recorder_failure_not_propagated true (.failure "disk full")
    [] ⟨7, "tune", false⟩ false
  exact ⟨by simpa [add_to_song_queue, recorderLogs] using h.1,
         h.2 "disk full" rfl rfl⟩

/-- Playback driver mode, spec §4.3 (the terminal `Stopped` immediately
re-enters `Idle`, so it is not a resting mode). -/
inductive DriverMode
  | idle
  | playing
  | paused
deriving DecidableEq, Repr

/-- Handle of the long-lived audio player task of a session. -/
structure TaskHandle where
  done : Bool
deriving DecidableEq, Repr

/-- The per-guild `AudioPlayer` session handle, as used by the handlers in
`music_cog.py`: play queue, history (`prev_songs`, most recent last),
current song, driver mode, the voice client (sink) as the id of the
channel it is connected to, and the driver task handle. -/
structure AudioPlayer where
  song_queue : List Song
  prev_songs : List Song
  current_song : Option Song
  driver : DriverMode
  voice_client : Option Nat
  audio_player_task : Option TaskHandle
deriving DecidableEq, Repr

/-- Modelled from the spec: `AudioPlayer.is_currently_playing`
(`AudioPlayer` is not under src/); true while a current entry exists
(spec §4.3: both `Playing` and `Paused` retain the current entry). -/
def AudioPlayer.is_currently_playing (p : AudioPlayer) : Bool :=
  p.current_song.isSome

/-- Modelled from the spec: `AudioPlayer.pause`; §4.3: `Playing → Paused`,
fails (returns false, no mutation) if not currently `Playing`. -/
def AudioPlayer.pause (p : AudioPlayer) : AudioPlayer × Bool :=
  if p.driver = DriverMode.playing then
    ({ p with driver := DriverMode.paused }, true)
  else (p, false)

/-- Modelled from the spec: `AudioPlayer.resume`; §4.3: `Paused →
Playing`, fails (returns false, no mutation) if not currently `Paused`. -/
def AudioPlayer.resume (p : AudioPlayer) : AudioPlayer × Bool :=
  if p.driver = DriverMode.paused then
    ({ p with driver := DriverMode.playing }, true)
  else (p, false)

/-- Modelled from the spec: `AudioPlayer.stop`; §4.3: halt the sink, clear
the play queue, discard the current entry (not pushed to history), go
`Idle`; fails (no-op, reports false) if nothing was playing and the queue
was already empty. -/
def AudioPlayer.stop (p : AudioPlayer) : AudioPlayer × Bool :=
  if p.current_song.isNone && p.song_queue.isEmpty then (p, false)
  else
    ({ p with song_queue := [], current_song := none,
              driver := DriverMode.idle }, true)

/-- Modelled from the spec: `AudioPlayer.skip(back)`; §4.3: a forward skip
needs a current entry, pushes it to history and goes `Idle`; a back skip
needs a non-empty history and something playing, pops the most recent
history entry, prepends it to the play queue, and discards the halted
current entry (not pushed to history).  Both fail (return false, no
mutation) otherwise. -/
def AudioPlayer.skip (p : AudioPlayer) (back : Bool) : AudioPlayer × Bool :=
  if back then
    if p.current_song.isSome && !p.prev_songs.isEmpty then
      ({ p with song_queue := p.prev_songs.getLast?.toList ++ p.song_queue,
                prev_songs := p.prev_songs.dropLast,
                current_song := none, driver := DriverMode.idle }, true)
    else (p, false)
  else
    match p.current_song with
    | some s =>
        ({ p with current_song := none, prev_songs := p.prev_songs ++ [s],
                  driver := DriverMode.idle }, true)
    | none => (p, false)

/-- Outcome of a control command: the handler sent either a success or a
user-facing failure message (`ctx.send` of the "Cê ta doido..." kind).
The handlers are total — no exception value appears in the result. -/
inductive CmdResult
  | success
  | failure
deriving DecidableEq, Repr

/-- `MusicCog.pause` (`music_cog.py:272-281`): failure message when
nothing is playing, failure message when `audio_player.pause()` reports
false (already paused), success message otherwise. -/
def pauseCommand (p : AudioPlayer) : AudioPlayer × CmdResult :=
  if !p.is_currently_playing then (p, CmdResult.failure)
  else
    let r := p.pause
    if !r.2 then (r.1, CmdResult.failure) else (r.1, CmdResult.success)

/-- `MusicCog.resume` (`music_cog.py:283-292`): failure message when
nothing is playing, failure message when `audio_player.resume()` reports
false (not paused), success message otherwise. -/
def resumeCommand (p : AudioPlayer) : AudioPlayer × CmdResult :=
  if !p.is_currently_playing then (p, CmdResult.failure)
  else
    let r := p.resume
    if !r.2 then (r.1, CmdResult.failure) else (r.1, CmdResult.success)

/-- `MusicCog.stop` (`music_cog.py:294-302`): failure message when
`audio_player.stop()` reports false, success message otherwise. -/
def stopCommand (p : AudioPlayer) : AudioPlayer × CmdResult :=
  let r := p.stop
  (r.1, if r.2 then CmdResult.success else CmdResult.failure)

/-- `MusicCog.skip` (`music_cog.py:314-319`): failure message when
`audio_player.skip()` reports false. -/
def skipCommand (p : AudioPlayer) : AudioPlayer × CmdResult :=
  let r := p.skip false
  (r.1, if r.2 then CmdResult.success else CmdResult.failure)

/-- `MusicCog.back` (`music_cog.py:304-312`): failure message when the
history is empty — `audio_player.skip` is not even invoked then — and
failure message when `audio_player.skip(back=True)` reports false. -/
def backCommand (p : AudioPlayer) : AudioPlayer × CmdResult :=
  if p.prev_songs.isEmpty then (p, CmdResult.failure)
  else
    let r := p.skip true
    (r.1, if r.2 then CmdResult.success else CmdResult.failure)

/-- The five control commands of C4. -/
inductive Cmd
  | pause
  | resume
  | stop
  | skip
  | back
deriving DecidableEq, Repr

/-- Dispatch of the five control-command handlers of `MusicCog`. -/
def runCommand : Cmd → AudioPlayer → AudioPlayer × CmdResult
  | Cmd.pause, p => pauseCommand p
  | Cmd.resume, p => resumeCommand p
  | Cmd.stop, p => stopCommand p
  | Cmd.skip, p => skipCommand p
  | Cmd.back, p => backCommand p

/-- The invalid-state condition of each command per the spec taxonomy
(§4.3, §7): pause while not playing, resume while not paused, stop or
skip with nothing active, back with empty history or nothing playing. -/
def invalidState : Cmd → AudioPlayer → Bool
  | Cmd.pause, p => !(p.current_song.isSome && p.driver == DriverMode.playing)
  | Cmd.resume, p => !(p.current_song.isSome && p.driver == DriverMode.paused)
  | Cmd.stop, p => p.current_song.isNone && p.song_queue.isEmpty
  | Cmd.skip, p => p.current_song.isNone
  | Cmd.back, p => p.prev_songs.isEmpty || p.current_song.isNone

/-- C4: every control command among pause, resume, stop, skip and back
surfaces an invalid-state condition as a user-facing failure message —
the handlers are total functions into `CmdResult`, so no exception is
raised — the failure outcome occurs exactly on the invalid-state
condition, and in the failure case the session state is completely
unchanged (no mutation). -/
theorem control_commands_surface_invalid_state (c : Cmd) (p : AudioPlayer) :
    ((runCommand c p).2 = CmdResult.failure ↔ invalidState c p = true) ∧
    ((runCommand c p).2 = CmdResult.failure → (runCommand c p).1 = p) := by
  obtain ⟨q, prev, cur, d, vc, t⟩ := p
  cases c <;> cases cur <;> cases d <;> cases q <;> cases prev <;>
    simp [runCommand, pauseCommand, resumeCommand, stopCommand, skipCommand,
      backCommand, AudioPlayer.is_currently_playing, AudioPlayer.pause,
      AudioPlayer.resume, AudioPlayer.stop, AudioPlayer.skip, invalidState]

/-- Witness for C4: going back with an empty history while a song plays
yields the failure outcome and leaves the player untouched. -/
theorem control_commands_witness :
    (runCommand Cmd.back
      ⟨[⟨2, "b", false⟩], [], some ⟨1, "a", false⟩,
        DriverMode.playing, some 5, some ⟨false⟩⟩).2 = CmdResult.failure ∧
    (runCommand Cmd.back
      ⟨[⟨2, "b", false⟩], [], some ⟨1, "a", false⟩,
        DriverMode.playing, some 5, some ⟨false⟩⟩).1 =
      ⟨[⟨2, "b", false⟩], [], some ⟨1, "a", false⟩,
        DriverMode.playing, some 5, some ⟨false⟩⟩ := by
  have h := control_commands_surface_invalid_state Cmd.back
    ⟨[⟨2, "b", false⟩], [], some ⟨1, "a", false⟩,
      DriverMode.playing, some 5, some ⟨false⟩⟩
  have hf := h.1.mpr (by decide)
  exact ⟨hf, h.2 hf⟩

/-- The inline actions of the playlist branch of `MusicCog._play`
(`music_cog.py:504-523`), in source order. -/
inductive PlaylistAction
  | sendPlaylistEmbed
  | spawnProcessPlaylist
  | waitLoop
  | sendFinishedMessage
deriving DecidableEq, Repr

/-- Coroutine bodies that the playlist branch could hand to
`asyncio.get_running_loop().create_task`. -/
inductive TaskBody
  | processPlaylist
  | waitLoopTask
deriving DecidableEq, Repr

/-- The playlist branch of `MusicCog._play` as written: send the playlist
embed, create a background task, run the readiness-waiting loop, send the
finished message.  All of these are awaited inline in the command handler
coroutine. -/
def playlistBranchInline : List PlaylistAction :=
  [PlaylistAction.sendPlaylistEmbed, PlaylistAction.spawnProcessPlaylist,
   PlaylistAction.waitLoop, PlaylistAction.sendFinishedMessage]

/-- The bodies actually wrapped in `create_task` by the playlist branch:
only `self.song_factory.process_playlist(playlist)`
(`music_cog.py:508-510`).  The waiting loop is not among them. -/
def playlistBranchBackground : List TaskBody :=
  [TaskBody.processPlaylist]

/-- C5 counterexample: the claim that the readiness-waiting loop runs as
an independent background task is false of the source — the only body
handed to `create_task` is `process_playlist`; the waiting loop is an
inline action of the command handler coroutine. -/
theorem wait_loop_is_not_a_background_task :
    TaskBody.waitLoopTask ∉ playlistBranchBackground ∧
    PlaylistAction.waitLoop ∈ playlistBranchInline := by
  decide

/-- C5 amended: for every collection request, the playlist-resolution
work `process_playlist` runs as an independent background task, while the
loop that waits on entry readiness signals in collection order runs
inline in the play command handler coroutine, after the spawn and before
the completion message is sent. -/
theorem playlist_resolution_is_backgrounded_wait_loop_is_inline :
    TaskBody.processPlaylist ∈ playlistBranchBackground ∧
    TaskBody.waitLoopTask ∉ playlistBranchBackground ∧
    PlaylistAction.waitLoop ∈ playlistBranchInline ∧
    playlistBranchInline.indexOf PlaylistAction.spawnProcessPlaylist <
      playlistBranchInline.indexOf PlaylistAction.waitLoop ∧
    playlistBranchInline.indexOf PlaylistAction.waitLoop <
      playlistBranchInline.indexOf PlaylistAction.sendFinishedMessage := by
  decide

/-- Is a driver task present and not yet completed? -/
def isLiveTask : Option TaskHandle → Bool
  | none => false
  | some h => !h.done

/-- Modelled from the spec: `AudioPlayer.start_audio_player` (not under
src/); §4.3: creates the long-lived driver task and stores it on the
handle; the fresh task is running. -/
def start_audio_player (p : AudioPlayer) : AudioPlayer :=
  { p with audio_player_task := some ⟨false⟩ }

/-- The driver-start logic of `MusicCog.join` (`music_cog.py:255-259`):
`if not ctx.audio_player.audio_player_task or
ctx.audio_player.audio_player_task.done(): start_audio_player()`.
Returns the updated player and whether `start_audio_player` was
invoked. -/
def joinStartLogic (p : AudioPlayer) : AudioPlayer × Bool :=
  match p.audio_player_task with
  | none => (start_audio_player p, true)
  | some h => if h.done then (start_audio_player p, true) else (p, false)

/-- C6: the join command starts the driver task only when no driver task
exists or the previous task has completed; when a live task exists the
join is a no-op for the driver (neither the player nor its task change),
and in every case the player ends up holding exactly one task handle, so
at most one live driver task exists per session. -/
theorem join_starts_driver_only_when_not_running (p : AudioPlayer) :
    (isLiveTask p.audio_player_task = true → joinStartLogic p = (p, false)) ∧
    (isLiveTask p.audio_player_task = false →
      joinStartLogic p = (start_audio_player p, true)) ∧
    (joinStartLogic p).1.audio_player_task.isSome = true := by
  obtain ⟨q, prev, cur, d, vc, t⟩ := p
  match t with
  | none => simp [joinStartLogic, isLiveTask, start_audio_player]
  | some ⟨true⟩ => simp [joinStartLogic, isLiveTask, start_audio_player]
  | some ⟨false⟩ => simp [joinStartLogic, isLiveTask, start_audio_player]

/-- Witness for C6: joining while the driver task is alive changes
nothing and does not start a second task. -/
theorem join_no_op_witness :
    joinStartLogic ⟨[], [], none, DriverMode.idle, some 5, some ⟨false⟩⟩ =
      (⟨[], [], none, DriverMode.idle, some 5, some ⟨false⟩⟩, false) :=
  (join_starts_driver_only_when_not_running
    ⟨[], [], none, DriverMode.idle, some 5, some ⟨false⟩⟩).1 rfl

/-- The error categories distinguished by `MusicCog.cog_command_error`:
the three classes it tests with a genuine `isinstance`, a real
`SpotifyException`, and any other exception. -/
inductive ErrKind
  | commandNotFound
  | userInputError
  | youtubeDLError
  | spotifyException
  | otherError
deriving DecidableEq, Repr

/-- The messages `cog_command_error` can send. -/
inductive SentMessage
  | unknownCommand
  | badUserInput
  | youtubeDLMessage
  | spotifyMessage
  | genericFallback
deriving DecidableEq, Repr

/-- Result of the cog-level error handler: a message was sent, or a new
exception escaped the handler. -/
inductive HandlerOutcome
  | sent (m : SentMessage)
  | raised (e : PyError)
deriving DecidableEq, Repr

/-- `MusicCog.cog_command_error` (`music_cog.py:165-187`).  The first
three branches test `CommandNotFound`, `UserInputError` and
`YoutubeDLError` with genuine `isinstance` calls.  The fourth branch is
`isinstance(error, 'SpotifyException')` — the class name as a string
literal — and in Python `isinstance` with a `str` second argument raises
`TypeError`, so every error that falls through the first three branches
raises there, before the Spotify-specific or the generic fallback
message could be chosen. -/
def cog_command_error : ErrKind → HandlerOutcome
  | ErrKind.commandNotFound => HandlerOutcome.sent SentMessage.unknownCommand
  | ErrKind.userInputError => HandlerOutcome.sent SentMessage.badUserInput
  | ErrKind.youtubeDLError => HandlerOutcome.sent SentMessage.youtubeDLMessage
  | ErrKind.spotifyException => HandlerOutcome.raised PyError.typeError
  | ErrKind.otherError => HandlerOutcome.raised PyError.typeError

/-- C8: any error that is not a `CommandNotFound`, `UserInputError` or
`YoutubeDLError` makes the string-literal `isinstance` check raise a
`TypeError`, so neither the Spotify-specific message nor the generic
fallback — nor any message at all — is sent for such errors. -/
theorem error_handler_raises_type_error (e : ErrKind)
    (h : e ≠ ErrKind.commandNotFound ∧ e ≠ ErrKind.userInputError ∧
      e ≠ ErrKind.youtubeDLError) :
    cog_command_error e = HandlerOutcome.raised PyError.typeError ∧
    ∀ m, cog_command_error e ≠ HandlerOutcome.sent m := by
  cases e <;> simp_all [cog_command_error]

/-- Witness for C8: a genuine `SpotifyException` reaching the handler
produces the `TypeError`, not the intended Spotify message. -/
theorem error_handler_witness :
    cog_command_error ErrKind.spotifyException =
      HandlerOutcome.raised PyError.typeError ∧
    cog_command_error ErrKind.spotifyException ≠
      HandlerOutcome.sent SentMessage.spotifyMessage :=
  ⟨(error_handler_raises_type_error ErrKind.spotifyException
      (by refine ⟨?_, ?_, ?_⟩ <;> decide)).1,
   (error_handler_raises_type_error ErrKind.spotifyException
      (by refine ⟨?_, ?_, ?_⟩ <;> decide)).2 SentMessage.spotifyMessage⟩

/-- The `self.audio_players` registry: guild id to session handle, as an
association list with unique keys looked up front to back. -/
abbrev Registry := List (Nat × AudioPlayer)

/-- Dictionary lookup `self.audio_players.get(guild_id)`. -/
def lookupPlayer : Registry → Nat → Option AudioPlayer
  | [], _ => none
  | (g0, p0) :: rest, g => if g0 = g then some p0 else lookupPlayer rest g

/-- Dictionary store `self.audio_players[guild_id] = player`. -/
def setPlayer : Registry → Nat → AudioPlayer → Registry
  | [], g, p => [(g, p)]
  | (g0, p0) :: rest, g, p =>
      if g0 = g then (g0, p) :: rest else (g0, p0) :: setPlayer rest g p

/-- Dictionary delete `del self.audio_players[guild_id]`. -/
def erasePlayer (reg : Registry) (g : Nat) : Registry :=
  reg.filter (fun e => e.1 ≠ g)

/-- A freshly constructed `AudioPlayer(config, usage_db, bot)`: empty
queue and history, nothing playing, no voice client, no driver task. -/
def newAudioPlayer : AudioPlayer :=
  ⟨[], [], none, DriverMode.idle, none, none⟩

/-- `MusicCog.get_audio_player` (`music_cog.py:147-163`): return the
stored player of the guild, or construct one and store it. -/
def get_audio_player (reg : Registry) (g : Nat) : Registry × AudioPlayer :=
  match lookupPlayer reg g with
  | some p => (reg, p)
  | none => (setPlayer reg g newAudioPlayer, newAudioPlayer)

/-- Modelled from the spec: `AudioPlayer.leave` (not under src/); §4.4:
cancels the driver task, disconnects the sink and releases the owned
resources of the handle, reporting false when there was no voice
connection to tear down. -/
def AudioPlayer.leave (p : AudioPlayer) : AudioPlayer × Bool :=
  match p.voice_client with
  | none => (p, false)
  | some _ =>
      (⟨[], [], none, DriverMode.idle, none, none⟩, true)

/-- `MusicCog.leave` (`music_cog.py:263-270`): invoke
`audio_player.leave()`; on failure send a message and leave the registry
alone, on success `del self.audio_players[ctx.guild.id]`. -/
def leaveCommand (reg : Registry) (g : Nat) : Registry × Bool :=
  let gp := get_audio_player reg g
  let l := AudioPlayer.leave gp.2
  let reg1 := setPlayer gp.1 g l.1
  if l.2 then (erasePlayer reg1 g, true) else (reg1, false)

/-- One voice-state update event as seen by the listener: the member who
changed state, the channel they are in afterwards, and the channel (with
its guild and remaining occupancy) they were in before. -/
structure VoiceUpdate where
  memberId : Nat
  afterChannel : Option Nat
  beforeChannelId : Nat
  beforeGuildId : Nat
  beforeChannelMemberCount : Nat
deriving DecidableEq, Repr

/-- `MusicCog.on_voice_state_update` (`music_cog.py:229-244`): when a
member other than the bot ends up with no channel, fetch the audio player
of the guild of the channel they left; if that player has a voice client
connected to that same channel and at most one participant remains in
it, invoke `audio_player.leave()` — without deleting the registry entry.
Returns the updated registry and whether `leave` was invoked. -/
def on_voice_state_update (reg : Registry) (botUserId : Nat)
    (u : VoiceUpdate) : Registry × Bool :=
  if u.memberId ≠ botUserId ∧ u.afterChannel = none then
    let gp := get_audio_player reg u.beforeGuildId
    match gp.2.voice_client with
    | some ch =>
        if u.beforeChannelId = ch ∧ u.beforeChannelMemberCount ≤ 1 then
          (setPlayer gp.1 u.beforeGuildId (AudioPlayer.leave gp.2).1, true)
        else (gp.1, false)
    | none => (gp.1, false)
  else (reg, false)

/-- C7: a voice-state update reporting that a non-bot member left a
channel (their new channel is `None`), while the voice client of the
session of that guild is connected to that same channel and at most one
participant remains in it, automatically invokes `leave` on that
session. -/
theorem auto_leave_on_empty_channel
    (reg : Registry) (botUserId : Nat) (u : VoiceUpdate)
    (p : AudioPlayer) (ch : Nat)
    (hmem : u.memberId ≠ botUserId) (haft : u.afterChannel = none)
    (hlook : lookupPlayer reg u.beforeGuildId = some p)
    (hvc : p.voice_client = some ch) (hch : u.beforeChannelId = ch)
    (hcnt : u.beforeChannelMemberCount ≤ 1) :
    (on_voice_state_update reg botUserId u).2 = true := by
  simp only [on_voice_state_update, get_audio_player, hlook]
  rw [if_pos ⟨hmem, haft⟩]
  simp only [hvc]
  rw [if_pos ⟨hch, hcnt⟩]

/-- Witness for C7: member 2 (bot is 9) drops to no channel, the session
of guild 40 is connected to the channel 7 they left, one participant
remains — `leave` is invoked. -/
theorem auto_leave_witness :
    (on_voice_state_update
      [(40, ⟨[], [], none, DriverMode.idle, some 7, some ⟨false⟩⟩)] 9
      ⟨2, none, 7, 40, 1⟩).2 = true :=
  auto_leave_on_empty_channel
    [(40, ⟨[], [], none, DriverMode.idle, some 7, some ⟨false⟩⟩)] 9
    ⟨2, none, 7, 40, 1⟩
    ⟨[], [], none, DriverMode.idle, some 7, some ⟨false⟩⟩ 7
    (by decide) rfl rfl rfl rfl (by decide)

lemma lookup_setPlayer_isSome (reg : Registry) (g g' : Nat) (q : AudioPlayer)
    (h : (lookupPlayer reg g).isSome = true) :
    (lookupPlayer (setPlayer reg g q) g').isSome =
      (lookupPlayer reg g').isSome := by
  induction reg with
  | nil => simp [lookupPlayer] at h
  | cons e rest ih =>
      obtain ⟨g0, p0⟩ := e
      by_cases h0 : g0 = g
      · subst h0
        by_cases h1 : g0 = g' <;> simp [setPlayer, lookupPlayer, h1]
      · have h2 : (lookupPlayer rest g).isSome = true := by
          simpa [lookupPlayer, h0] using h
        by_cases h1 : g0 = g'
        · subst h1
          simp [setPlayer, lookupPlayer, h0]
        · simp [setPlayer, lookupPlayer, h0, h1, ih h2]

lemma lookup_erasePlayer_self (reg : Registry) (g : Nat) :
    lookupPlayer (erasePlayer reg g) g = none := by
  induction reg with
  | nil => rfl
  | cons e rest ih =>
      obtain ⟨g0, p0⟩ := e
      by_cases h0 : g0 = g
      · simpa [erasePlayer, h0] using ih
      · simpa [erasePlayer, lookupPlayer, h0] using ih

/-- C9: a successful leave command deletes the registry entry of the
guild, while the automatic leave of `on_voice_state_update` only tears
down the handle — for every guild, presence in the registry is unchanged
by the automatic path. -/
theorem leave_deletes_entry_auto_leave_keeps_it
    (reg : Registry) (g : Nat) (p : AudioPlayer) (ch : Nat)
    (botUserId : Nat) (u : VoiceUpdate)
    (hlook : lookupPlayer reg g = some p) (hconn : p.voice_client = some ch)
    (hg : u.beforeGuildId = g) :
    (leaveCommand reg g).2 = true ∧
    lookupPlayer (leaveCommand reg g).1 g = none ∧
    (∀ g', (lookupPlayer (on_voice_state_update reg botUserId u).1 g').isSome =
      (lookupPlayer reg g').isSome) := by
  have hsome : (lookupPlayer reg g).isSome = true := by rw [hlook]; rfl
  refine ⟨?_, ?_, ?_⟩
  · simp [leaveCommand, get_audio_player, hlook, AudioPlayer.leave, hconn]
  · simp [leaveCommand, get_audio_player, hlook, AudioPlayer.leave, hconn,
      lookup_erasePlayer_self]
  · intro g'
    subst hg
    unfold on_voice_state_update
    by_cases hguard : u.memberId ≠ botUserId ∧ u.afterChannel = none
    · rw [if_pos hguard]
      simp only [get_audio_player, hlook, hconn]
      by_cases hin : u.beforeChannelId = ch ∧ u.beforeChannelMemberCount ≤ 1
      · rw [if_pos hin]
        exact lookup_setPlayer_isSome reg u.beforeGuildId g' _ hsome
      · rw [if_neg hin]
    · rw [if_neg hguard]

/-- Witness for C9: with guild 40 connected to channel 7, the leave
command removes the registry entry, while the automatic leave (triggered
by the last listener leaving channel 7) keeps guild 40 in the
registry. -/
theorem leave_registry_witness :
    (leaveCommand [(40, ⟨[], [], none, DriverMode.idle, some 7, some ⟨false⟩⟩)]
      40).2 = true ∧
    lookupPlayer
      (leaveCommand [(40, ⟨[], [], none, DriverMode.idle, some 7, some ⟨false⟩⟩)]
        40).1 40 = none ∧
    (lookupPlayer
      (on_voice_state_update
        [(40, ⟨[], [], none, DriverMode.idle, some 7, some ⟨false⟩⟩)] 9
        ⟨2, none, 7, 40, 1⟩).1 40).isSome =
      (lookupPlayer
        [(40, ⟨[], [], none, DriverMode.idle, some 7, some ⟨false⟩⟩)]
        40).isSome := by
  have h := leave_deletes_entry_auto_leave_keeps_it
    [(40, ⟨[], [], none, DriverMode.idle, some 7, some ⟨false⟩⟩)] 40
    ⟨[], [], none, DriverMode.idle, some 7, some ⟨false⟩⟩ 7 9
    ⟨2, none, 7, 40, 1⟩ rfl rfl rfl
  exact ⟨h.1, h.2.1, h.2.2 40⟩

/-- Outcome of the remove command when it returns normally. -/
inductive RemoveOutcome
  | emptyQueueMessage
  | invalidIndexMessage (index : Int)
  | notFoundMessage
  | removed (s : Song)
deriving DecidableEq, Repr

/-- Modelled from the spec: `AudioPlayer.remove_from_song_queue(index=i)`
(`AudioPlayer` is not under src/); §4.1 remove-at-position: when the
(already 0-based, after the subtraction at the call site) index is in
range, removes and returns the entry there; otherwise signals not-found
with no mutation. -/
def remove_from_song_queue (queue : List Song) (index : Int) :
    Option (Song × List Song) :=
  if h : 0 ≤ index ∧ index.toNat < queue.length then
    some (queue.get ⟨index.toNat, h.2⟩, queue.eraseIdx index.toNat)
  else none

/-- `MusicCog.remove` (`music_cog.py:404-432`).  `isInt` and `pyInt`
stand for `utils.is_int` and the Python `int` conversion (`utils` is not
under src/); `searchRemove` stands for the YouTube-search branch built on
`song_factory.create_yt_playlist` and the id-set variant of
`remove_from_song_queue` (also not under src/).  After the empty-queue
guard, the handler evaluates `args[0]` — on an empty argument tuple this
raises `IndexError` before anything else runs; on an integer first
argument it removes at the 0-based index `int(args[0]) - 1`. -/
def removeCommand (isInt : String → Bool) (pyInt : String → Int)
    (searchRemove : List String → List Song → Option (Song × List Song))
    (p : AudioPlayer) (args : List String) :
    Except PyError (AudioPlayer × RemoveOutcome) :=
  if p.song_queue.isEmpty then Except.ok (p, RemoveOutcome.emptyQueueMessage)
  else
    match args with
    | [] => Except.error PyError.indexError
    | a :: _ =>
        if isInt a then
          let index := pyInt a
          match remove_from_song_queue p.song_queue (index - 1) with
          | some (s, q') =>
              Except.ok ({ p with song_queue := q' }, RemoveOutcome.removed s)
          | none => Except.ok (p, RemoveOutcome.invalidIndexMessage index)
        else
          match searchRemove args p.song_queue with
          | some (s, q') =>
              Except.ok ({ p with song_queue := q' }, RemoveOutcome.removed s)
          | none => Except.ok (p, RemoveOutcome.notFoundMessage)

/-- C10: with a non-empty queue, invoking remove with zero arguments
evaluates `args[0]` on an empty tuple and raises an uncaught
`IndexError`; with a numeric first argument whose value `n` is an
in-range 1-based position, the entry at the 0-based index `n - 1` is the
one removed from the queue. -/
theorem remove_no_args_raises_and_position_is_one_based
    (isInt : String → Bool) (pyInt : String → Int)
    (searchRemove : List String → List Song → Option (Song × List Song))
    (p : AudioPlayer) (hq : p.song_queue ≠ []) :
    removeCommand isInt pyInt searchRemove p [] =
      Except.error PyError.indexError ∧
    (∀ a rest n, isInt a = true → pyInt a = n → 1 ≤ n →
      n.toNat ≤ p.song_queue.length →
      ∃ s, p.song_queue.get? (n - 1).toNat = some s ∧
        removeCommand isInt pyInt searchRemove p (a :: rest) =
          Except.ok
            ({ p with song_queue := p.song_queue.eraseIdx (n - 1).toNat },
             RemoveOutcome.removed s)) := by
  have hne : p.song_queue.isEmpty = false := by
    cases hql : p.song_queue with
    | nil => exact absurd hql hq
    | cons x xs => rfl
  constructor
  · simp [removeCommand, hne]
  · intro a rest n hint hval hn hlen
    have hlt : (n - 1).toNat < p.song_queue.length := by omega
    have hcond : 0 ≤ n - 1 ∧ (n - 1).toNat < p.song_queue.length :=
      ⟨by omega, hlt⟩
    refine ⟨p.song_queue.get ⟨(n - 1).toNat, hlt⟩, ?_, ?_⟩
    · rw [List.get?_eq_get hlt]
    · have hrm : remove_from_song_queue p.song_queue (n - 1) =
          some (p.song_queue.get ⟨(n - 1).toNat, hlt⟩,
                p.song_queue.eraseIdx (n - 1).toNat) := by
        unfold remove_from_song_queue
        rw [dif_pos hcond]
      simp [removeCommand, hne, hint, hval, hrm]

/-- Witness for C10: on the queue `[a, b, c]` the call with no arguments
raises `IndexError`, and the call with argument "2" removes the second
song `b` (0-based index 1). -/
theorem remove_command_witness :
    removeCommand (fun s => s == "2") (fun _ => 2) (fun _ _ => none)
      ⟨[⟨1, "a", false⟩, ⟨2, "b", false⟩, ⟨3, "c", false⟩], [], none,
        DriverMode.idle, none, none⟩ [] = Except.error PyError.indexError ∧
    ∃ s, [Song.mk 1 "a" false, Song.mk 2 "b" false,
            Song.mk 3 "c" false].get? ((2 : Int) - 1).toNat = some s ∧
      removeCommand (fun s => s == "2") (fun _ => 2) (fun _ _ => none)
        ⟨[⟨1, "a", false⟩, ⟨2, "b", false⟩, ⟨3, "c", false⟩], [], none,
          DriverMode.idle, none, none⟩ ["2"] =
        Except.ok
          (⟨[⟨1, "a", false⟩, ⟨2, "b", false⟩,
              ⟨3, "c", false⟩].eraseIdx ((2 : Int) - 1).toNat, [], none,
            DriverMode.idle, none, none⟩,
           RemoveOutcome.removed s) := by
  have h := remove_no_args_raises_and_position_is_one_based
    (fun s => s == "2") (fun _ => 2) (fun _ _ => none)
    ⟨[⟨1, "a", false⟩, ⟨2, "b", false⟩, ⟨3, "c", false⟩], [], none,
      DriverMode.idle, none, none⟩ (by decide)
  exact ⟨h.1, h.2 "2" [] 2 rfl rfl (by decide) (by decide)⟩
